import Mathlib

/-!
Verification development for the `find-guardduty-user` command-line utility
(`main.go`).  The program enumerates GuardDuty findings, correlates each
finding with CloudTrail audit events, and prints the resolved identity in
JSON or text form.  The definitions below are a shallow embedding of the
Go source: pure data is modelled by Lean structures, remote services by
explicit response functions, fallible calls by `Except`, and the unbounded
pagination loop by a fuel-indexed recursion (`none` = fuel exhausted,
modelling a run that has not terminated within the given number of
iterations).
-/

namespace FindGuardDutyUser

/-- JSON values, modelling the `interface{}` results of `encoding/json`
unmarshalling.  Objects are association lists of fields. -/
inductive Json where
  | null : Json
  | bool : Bool → Json
  | num : Int → Json
  | str : String → Json
  | arr : List Json → Json
  | obj : List (String × Json) → Json

/-- Field lookup in a JSON object (`data["key"]` on the unmarshalled map). -/
def jlookup : List (String × Json) → String → Option Json
  | [], _ => none
  | (k, v) :: rest, key => if k = key then some v else jlookup rest key

/-- `aws.StringValue`: dereference a `*string`, with `nil` read as `""`. -/
def StringValue : Option String → String
  | none => ""
  | some s => s

/-- A Go type assertion `x.(string)` used with the two-result form:
a missing or non-string field yields `""` without an error
(`username, _ := userIdentity["userName"].(string)`). -/
def getStringField (fields : List (String × Json)) (key : String) : String :=
  match jlookup fields key with
  | some (Json.str s) => s
  | _ => ""

/-- A CloudTrail event as used by the program: the top-level `Username`
field, the raw `CloudTrailEvent` payload (`some j` when the payload is the
JSON value `j`, `none` when the pointer is nil or the text is not valid
JSON), and, for modelling the remote service's matching semantics, the
lookup attributes the event carries. -/
structure CTEvent where
  username : Option String
  cloudTrailEvent : Option Json
  attributes : List (String × String)

/-- `cloudtrail.LookupAttribute`. -/
structure LookupAttribute where
  attributeKey : String
  attributeValue : String
deriving DecidableEq

/-- `cloudtrail.LookupEventsInput`: the attribute filters and the
`MaxResults` cap (an `int64` in Go). -/
structure LookupEventsInput where
  lookupAttributes : List LookupAttribute
  maxResults : Int
deriving DecidableEq

/-- `cloudtrail.LookupEventsOutput`. -/
structure LookupEventsOutput where
  events : List CTEvent

/-- The CloudTrail service, abstracted as a response function for
`LookupEvents` requests. -/
structure CloudTrail where
  lookupEvents : LookupEventsInput → Except String LookupEventsOutput

/-- The request `LookupEvent` builds for a key/value pair: one lookup
attribute and `maxResults := int64(1)`. -/
def lookupEventsInputFor (key value : String) : LookupEventsInput :=
  { lookupAttributes := [{ attributeKey := key, attributeValue := value }]
    maxResults := 1 }

/-- `LookupEvent` from `main.go`: issue one `LookupEvents` request and
require exactly one event in the response.  The second component records
the requests issued (always exactly the one request), so that theorems can
speak about which lookups a run performs. -/
def LookupEvent (key value : String) (svc : CloudTrail) :
    Except String CTEvent × List LookupEventsInput :=
  let input := lookupEventsInputFor key value
  match svc.lookupEvents input with
  | .error e =>
      (.error ("LookupEvents failed with Attribute Key " ++ key ++
        " and Attribute Value " ++ value ++ ": " ++ e), [input])
  | .ok out =>
      match out.events with
      | [event] => (.ok event, [input])
      | events =>
          (.error ("Expected exactly one event, got " ++ toString events.length),
           [input])

/-- `GetRoleAndUser` from `main.go`: look up one event for the key/value
pair, unmarshal its `CloudTrailEvent` payload, and extract
`userIdentity.arn` (required) and `userIdentity.userName` (optional,
defaulting to `""`). -/
def GetRoleAndUser (key value : String) (svc : CloudTrail) :
    Except String (String × String) × List LookupEventsInput :=
  match LookupEvent key value svc with
  | (.error e, tr) =>
      (.error ("Unable to find CloudTrail event for " ++ key ++ " " ++ value ++
        ": " ++ e), tr)
  | (.ok event, tr) =>
      match event.cloudTrailEvent with
      | some (Json.obj data) =>
          match jlookup data "userIdentity" with
          | some (Json.obj userIdentity) =>
              match jlookup userIdentity "arn" with
              | some (Json.str roleArn) =>
                  (.ok (roleArn, getStringField userIdentity "userName"), tr)
              | _ => (.error "Could not retrieve arn from JSON object", tr)
          | _ => (.error "Could not retrieve userIdentity from JSON object", tr)
      | _ => (.error "Unable to unmarshal JSON data from CloudTrail event", tr)

/-- `GetUser` from `main.go`: look up one event with
`"ResourceName" = roleArn` and return its top-level `Username` field (the
payload is never parsed here). -/
def GetUser (roleArn : String) (svc : CloudTrail) :
    Except String String × List LookupEventsInput :=
  match LookupEvent "ResourceName" roleArn svc with
  | (.error e, tr) =>
      (.error ("Unable to find CloudTrail event for role arn " ++ roleArn ++
        ": " ++ e), tr)
  | (.ok event, tr) => (.ok (StringValue event.username), tr)

/-- Modelled from the spec: the Audit Log collaborator (AWS CloudTrail
itself, which is not code of this repository) "supports a lookup operation
returning at most a small number of matching events for an exact attribute
key/value pair" — a lookup returns the stored events matching every
requested attribute, truncated to the request's `MaxResults` cap. -/
def matchesInput (e : CTEvent) (input : LookupEventsInput) : Bool :=
  input.lookupAttributes.all (fun a =>
    e.attributes.contains (a.attributeKey, a.attributeValue))

/-- Modelled from the spec (continued): lookup returns the matching events
truncated to the request's cap. -/
def awsCloudTrail (store : List CTEvent) : CloudTrail :=
  { lookupEvents := fun input =>
      .ok { events := (store.filter (fun e => matchesInput e input)).take input.maxResults.toNat } }

/-- `guardduty.AccessKeyDetails`, the credential reference of a finding. -/
structure AccessKeyDetails where
  accessKeyId : Option String
  principalId : Option String

/-- The contextual fields the program reads from
`finding.Service.Action.AwsApiCallAction` (flattened). -/
structure ServiceInfo where
  ipAddressV4 : Option String
  serviceName : Option String
  api : Option String
  cityName : Option String
  countryName : Option String

/-- A GuardDuty finding, restricted to the fields `main.go` reads. -/
structure Finding where
  id : Option String
  createdAt : Option String
  accessKeyDetails : Option AccessKeyDetails
  service : Option ServiceInfo

/-- `FindingDetail` captures the data from a GuardDuty finding
(the output record). -/
structure FindingDetail where
  id : Option String
  createdAt : Option String
  accessKeyID : Option String
  principalID : Option String
  assumedRoleARN : Option String
  username : Option String
  ipAddress : Option String
  serviceName : Option String
  api : Option String
  city : Option String
  country : Option String

/-- Go JSON marshalling of a `*string` field without `omitempty`:
nil marshals as `null`. -/
def optJson : Option String → Json
  | none => Json.null
  | some s => Json.str s

/-- Go JSON marshalling of a `*string` field with `omitempty`:
a nil pointer is omitted, any non-nil pointer (even to `""`) is kept. -/
def omitemptyField (name : String) : Option String → List (String × Json)
  | none => []
  | some s => [(name, Json.str s)]

/-- The JSON object `PrintJSON` emits for a `FindingDetail`, field by field
in struct order, honouring the `json:"...,omitempty"` tags. -/
def jsonFields (fd : FindingDetail) : List (String × Json) :=
  [("id", optJson fd.id), ("createdAt", optJson fd.createdAt)]
  ++ omitemptyField "accessKeyID" fd.accessKeyID
  ++ omitemptyField "principalID" fd.principalID
  ++ [("assumeRoleARN", optJson fd.assumedRoleARN), ("username", optJson fd.username)]
  ++ omitemptyField "ipAddress" fd.ipAddress
  ++ omitemptyField "serviceName" fd.serviceName
  ++ omitemptyField "api" fd.api
  ++ omitemptyField "city" fd.city
  ++ omitemptyField "country" fd.country

/-- The eleven values `Print` substitutes into its fixed text template, in
template order, each rendered through `aws.StringValue` (nil becomes `""`). -/
def printText (fd : FindingDetail) : List String :=
  [StringValue fd.id, StringValue fd.createdAt, StringValue fd.accessKeyID,
   StringValue fd.principalID, StringValue fd.assumedRoleARN,
   StringValue fd.username, StringValue fd.ipAddress,
   StringValue fd.serviceName, StringValue fd.api,
   StringValue fd.city, StringValue fd.country]

/-- One printed record: either a JSON line or a filled text template. -/
inductive Rendered where
  | json : List (String × Json) → Rendered
  | text : List String → Rendered

/-- The per-finding output step: `if output == "json" { fd.PrintJSON(...) }
else { fd.Print(...) }`. -/
def renderFinding (output : String) (fd : FindingDetail) : Rendered :=
  if output = "json" then Rendered.json (jsonFields fd)
  else Rendered.text (printText fd)

/-- The guard `fd.AccessKeyID != nil && *fd.AccessKeyID != "" &&
*fd.AccessKeyID != "GeneratedFindingAccessKeyId"`. -/
def accessKeyUsable (akd : AccessKeyDetails) : Bool :=
  match akd.accessKeyId with
  | some a => a != "" && a != "GeneratedFindingAccessKeyId"
  | none => false

/-- The guard `fd.PrincipalID != nil && *fd.PrincipalID != "" &&
*fd.PrincipalID != "GeneratedFindingPrincipalId"`. -/
def principalUsable (akd : AccessKeyDetails) : Bool :=
  match akd.principalId with
  | some p => p != "" && p != "GeneratedFindingPrincipalId"
  | none => false

/-- The `if / else if / else` dispatch on the credential reference:
the access-key path first (key `"AccessKeyId"`), then the principal-id
path (key `"ResourceName"`), else no lookup at all. -/
def dispatchFinding (akd : AccessKeyDetails) : Option (String × String) :=
  if accessKeyUsable akd then some ("AccessKeyId", StringValue akd.accessKeyId)
  else if principalUsable akd then some ("ResourceName", StringValue akd.principalId)
  else none

/-- The `FindingDetail` assembled before identity resolution: finding id,
timestamps, credential reference, and (when `finding.Service` is non-nil)
the contextual fields. -/
def baseDetail (finding : Finding) (akd : AccessKeyDetails) : FindingDetail :=
  let fd : FindingDetail :=
    { id := finding.id, createdAt := finding.createdAt
      accessKeyID := akd.accessKeyId, principalID := akd.principalId
      assumedRoleARN := none, username := none
      ipAddress := none, serviceName := none, api := none
      city := none, country := none }
  match finding.service with
  | none => fd
  | some s =>
      { fd with
        ipAddress := s.ipAddressV4
        serviceName := s.serviceName
        api := s.api
        city := s.cityName
        country := s.countryName }

/-- Result of processing one finding: the detail record to print (`none`
when the finding is skipped by a `continue`) and the CloudTrail lookup
requests issued while processing it, in order. -/
structure ProcResult where
  out : Option FindingDetail
  lookups : List LookupEventsInput

/-- The username-fallback tail of the per-finding body: if the resolved
username is empty, retry with `GetUser` on the assumed-role ARN; then set
`fd.Username`. -/
def finishFinding (svc : CloudTrail) (fd : FindingDetail)
    (roleArn username0 : String) (tr : List LookupEventsInput) : ProcResult :=
  if username0 = "" then
    match GetUser roleArn svc with
    | (.error _, tr2) => { out := none, lookups := tr ++ tr2 }
    | (.ok username, tr2) =>
        { out := some { fd with username := some username }, lookups := tr ++ tr2 }
  else { out := some { fd with username := some username0 }, lookups := tr }

/-- The body of the inner `for _, finding := range findings.Findings` loop:
skip nil findings and findings without `AccessKeyDetails`, dispatch on the
credential reference, resolve role ARN and username, and produce the
record to print (or `none` on any `continue`). -/
def processFinding (svc : CloudTrail) (finding? : Option Finding) : ProcResult :=
  match finding? with
  | none => { out := none, lookups := [] }
  | some finding =>
      match finding.accessKeyDetails with
      | none => { out := none, lookups := [] }
      | some akd =>
          match dispatchFinding akd with
          | none => { out := none, lookups := [] }
          | some (key, value) =>
              let fd := baseDetail finding akd
              match GetRoleAndUser key value svc with
              | (.error _, tr) => { out := none, lookups := tr }
              | (.ok (roleArn, username0), tr) =>
                  if roleArn = "" then { out := none, lookups := tr }
                  else
                    finishFinding svc { fd with assumedRoleARN := some roleArn }
                      roleArn username0 tr

/-- The configuration values read through viper: partition, region,
archived, output and verbosity flags. -/
structure Config where
  partition : String
  region : String
  archived : Bool
  output : String
  verbose : Bool

/-- `checkRegion`: resolve the region table for the configured partition
(`endpoints.RegionsForService`, abstracted as a table parameter), then
require a non-empty partition, a non-empty region, and a region present in
the table. -/
def checkRegion (regionsForService : String → Option (List String))
    (cfg : Config) : Except String Unit :=
  match regionsForService cfg.partition with
  | none => .error "could not find regions for service guardduty"
  | some regions =>
      if cfg.partition = "" then
        .error ("aws-guardduty-partition is invalid: invalid partition " ++ cfg.partition)
      else if cfg.region = "" then
        .error ("aws-guardduty-region is invalid: invalid region " ++ cfg.region)
      else if regions.contains cfg.region then .ok ()
      else .error ("aws-guardduty-region is invalid: invalid region " ++ cfg.region)

/-- `checkOutput`: the output mode must be `"text"` or `"json"`. -/
def checkOutput (cfg : Config) : Except String Unit :=
  if cfg.output = "text" ∨ cfg.output = "json" then .ok ()
  else .error ("output is invalid: invalid output " ++ cfg.output)

/-- `checkConfig`: region check, then output check. -/
def checkConfig (regionsForService : String → Option (List String))
    (cfg : Config) : Except String Unit :=
  match checkRegion regionsForService cfg with
  | .error e => .error ("Region check failed: " ++ e)
  | .ok _ =>
      match checkOutput cfg with
      | .error e => .error ("Output check failed: " ++ e)
      | .ok _ => .ok ()

/-- `guardduty.ListFindingsOutput`: the finding ids of one page and the
continuation token for the next. -/
structure ListFindingsOutput where
  findingIds : List String
  nextToken : Option String

/-- The GuardDuty service, abstracted as response functions:
`ListDetectors`, `ListFindings` (detector id, archived criterion,
continuation token) and `GetFindings` (detector id, finding ids). -/
structure GuardDuty where
  listDetectors : Except String (List String)
  listFindings : String → String → Option String → Except String ListFindingsOutput
  getFindings : String → List String → Except String (List (Option Finding))

/-- The whole remote environment of one run: the SDK region table, the
credential and session setup, and the two services. -/
structure Env where
  regionsForService : String → Option (List String)
  credsGet : Except String Unit
  newSession : Except String Unit
  guardDuty : GuardDuty
  cloudTrail : CloudTrail

/-- The archived criterion string rebuilt on each loop iteration:
`"true"` when the archived flag is set, else `"false"`. -/
def archivedString (cfg : Config) : String :=
  if cfg.archived then "true" else "false"

/-- The records printed for one page of findings, in finding order:
each finding the resolver does not skip is rendered in the configured
output mode. -/
def pageOutputs (cfg : Config) (ct : CloudTrail)
    (findings : List (Option Finding)) : List Rendered :=
  findings.filterMap (fun f =>
    ((processFinding ct f).out).map (renderFinding cfg.output))

/-- The inner `for {}` pagination loop of `findGuardDutyUserFunction` for
one detector, indexed by fuel.  On a `ListFindings` error the Go code logs
and `continue`s — the token is unchanged.  On success the token is
advanced first; an empty id list breaks with no further output; a
`GetFindings` error is logged and leaves an empty findings slice; after
the page is processed a nil or empty token breaks. -/
def detectorLoop (cfg : Config) (env : Env) (detectorID : String) :
    Nat → Option String → Option (List Rendered)
  | 0, _ => none
  | Nat.succ fuel, token =>
      match env.guardDuty.listFindings detectorID (archivedString cfg) token with
      | .error _ => detectorLoop cfg env detectorID fuel token
      | .ok findingList =>
          let nextToken := findingList.nextToken
          match findingList.findingIds with
          | [] => some []
          | ids =>
              let findings : List (Option Finding) :=
                match env.guardDuty.getFindings detectorID ids with
                | .error _ => []
                | .ok fs => fs
              let page := pageOutputs cfg env.cloudTrail findings
              match nextToken with
              | none => some page
              | some "" => some page
              | some t =>
                  match detectorLoop cfg env detectorID fuel (some t) with
                  | none => none
                  | some rest => some (page ++ rest)

/-- The outer `for _, detectorID := range detectors.DetectorIds` loop:
run the pagination loop for each detector in order, concatenating the
printed records. -/
def runDetectors (cfg : Config) (env : Env) :
    List String → Nat → Option (List Rendered)
  | [], _ => some []
  | d :: ds, fuel =>
      match detectorLoop cfg env d fuel none with
      | none => none
      | some out =>
          match runDetectors cfg env ds fuel with
          | none => none
          | some rest => some (out ++ rest)

/-- How one run of the `find` subcommand ends: a returned configuration
error (non-zero exit, reached before any remote call), a `logger.Fatal`
(non-zero exit during setup), a normal completion carrying everything
printed, or fuel exhaustion (the fuel-indexed rendering of a run that has
not terminated). -/
inductive RunResult where
  | configError : String → RunResult
  | fatal : String → RunResult
  | ok : List Rendered → RunResult
  | outOfFuel : RunResult

/-- `findGuardDutyUserFunction`: check the configuration (returning its
error before any remote interaction), obtain credentials and a session,
list the detectors (`logger.Fatal` on failure), then walk all detectors. -/
def findGuardDutyUserFunction (env : Env) (cfg : Config) (fuel : Nat) : RunResult :=
  match checkConfig env.regionsForService cfg with
  | .error e => RunResult.configError e
  | .ok _ =>
      match env.credsGet with
      | .error e => RunResult.fatal e
      | .ok _ =>
          match env.newSession with
          | .error e => RunResult.fatal e
          | .ok _ =>
              match env.guardDuty.listDetectors with
              | .error e => RunResult.fatal e
              | .ok detectorIds =>
                  match runDetectors cfg env detectorIds fuel with
                  | none => RunResult.outOfFuel
                  | some out => RunResult.ok out

/-! Concrete inputs used by the end-to-end scenario, the counterexamples
and the witnesses. -/

/-- A small region table: the `aws` partition offers GuardDuty in
`us-west-2` and `us-east-1`. -/
def sampleRegions : String → Option (List String) := fun p =>
  if p = "aws" then some ["us-west-2", "us-east-1"] else none

/-- The configuration of the end-to-end scenario: defaults, JSON output,
archived=false. -/
def c1Cfg : Config :=
  { partition := "aws", region := "us-west-2", archived := false
    output := "json", verbose := false }

/-- First audit event of the scenario: matched by
`"AccessKeyId" = "AKIA123"`, payload has identity ARN
`arn:aws:iam::111:role/X` and no username. -/
def c1Event1 : CTEvent :=
  { username := none
    cloudTrailEvent := some (Json.obj
      [("userIdentity", Json.obj [("arn", Json.str "arn:aws:iam::111:role/X")])])
    attributes := [("AccessKeyId", "AKIA123")] }

/-- Second audit event of the scenario: matched by
`"ResourceName" = "arn:aws:iam::111:role/X"`, top-level username `alice`. -/
def c1Event2 : CTEvent :=
  { username := some "alice"
    cloudTrailEvent := none
    attributes := [("ResourceName", "arn:aws:iam::111:role/X")] }

/-- The one finding of the scenario: access-key reference `AKIA123`. -/
def c1Finding : Finding :=
  { id := some "finding-1", createdAt := some "2020-06-18T00:00:00Z"
    accessKeyDetails := some { accessKeyId := some "AKIA123", principalId := none }
    service := none }

/-- The remote environment of the end-to-end scenario: one detector, one
page with one finding, and the two audit events. -/
def c1Env : Env :=
  { regionsForService := sampleRegions
    credsGet := .ok ()
    newSession := .ok ()
    guardDuty :=
      { listDetectors := .ok ["detector-1"]
        listFindings := fun d archived token =>
          if d = "detector-1" && archived = "false" && token == none then
            .ok { findingIds := ["finding-1"], nextToken := none }
          else .error "no such page"
        getFindings := fun d ids =>
          if d = "detector-1" && ids == ["finding-1"] then .ok [some c1Finding]
          else .error "no such findings" }
    cloudTrail := awsCloudTrail [c1Event1, c1Event2] }

/-- The record the scenario is expected to print. -/
def c1Detail : FindingDetail :=
  { id := some "finding-1", createdAt := some "2020-06-18T00:00:00Z"
    accessKeyID := some "AKIA123", principalID := none
    assumedRoleARN := some "arn:aws:iam::111:role/X", username := some "alice"
    ipAddress := none, serviceName := none, api := none
    city := none, country := none }

/-- Two audit events that both match `"AccessKeyId" = "AKIA999"`.  The
first resolves fully (ARN and username in the payload). -/
def c2EventA : CTEvent :=
  { username := none
    cloudTrailEvent := some (Json.obj
      [("userIdentity", Json.obj
        [("arn", Json.str "arn:aws:iam::111:role/Y"), ("userName", Json.str "bob")])])
    attributes := [("AccessKeyId", "AKIA999")] }

/-- The second matching event for the same access key. -/
def c2EventB : CTEvent :=
  { username := none
    cloudTrailEvent := none
    attributes := [("AccessKeyId", "AKIA999")] }

/-- An audit store holding two events that match one lookup. -/
def c2Store : List CTEvent := [c2EventA, c2EventB]

/-- A finding whose access-key reference is matched by both stored
events. -/
def c2Finding : Finding :=
  { id := some "finding-2", createdAt := none
    accessKeyDetails := some { accessKeyId := some "AKIA999", principalId := none }
    service := none }

/-- An environment whose `ListFindings` call fails on every token. -/
def c3FailEnv : Env :=
  { regionsForService := sampleRegions
    credsGet := .ok ()
    newSession := .ok ()
    guardDuty :=
      { listDetectors := .ok ["detector-1"]
        listFindings := fun _ _ _ => .error "ListFindings outage"
        getFindings := fun _ _ => .error "unreachable" }
    cloudTrail := awsCloudTrail [] }

/-- First audit event of the principal-id scenario: matched by
`"ResourceName" = "AROA111"`, payload has an identity ARN and no
username. -/
def c10Event1 : CTEvent :=
  { username := none
    cloudTrailEvent := some (Json.obj
      [("userIdentity", Json.obj [("arn", Json.str "arn:aws:iam::111:role/Z")])])
    attributes := [("ResourceName", "AROA111")] }

/-- Second audit event of the principal-id scenario: matched by the ARN,
top-level username `carol`. -/
def c10Event2 : CTEvent :=
  { username := some "carol"
    cloudTrailEvent := none
    attributes := [("ResourceName", "arn:aws:iam::111:role/Z")] }

/-- A finding carrying only a principal id. -/
def c10Finding : Finding :=
  { id := some "finding-3", createdAt := none
    accessKeyDetails := some { accessKeyId := none, principalId := some "AROA111" }
    service := none }

/-- A configuration whose region value is not offered by the partition. -/
def cfgMars : Config :=
  { partition := "aws", region := "mars", archived := false
    output := "json", verbose := false }

/-- A lookup response with no events. -/
def emptyLookupOutput : LookupEventsOutput := { events := [] }

/-- A CloudTrail service that returns an empty event list to every
request. -/
def emptyCloudTrail : CloudTrail := { lookupEvents := fun _ => .ok emptyLookupOutput }

/-! Helper lemmas shared by the claim theorems. -/

/-- `LookupEvent` issues exactly its one constructed request. -/
theorem lookupEvent_snd (key value : String) (svc : CloudTrail) :
    (LookupEvent key value svc).2 = [lookupEventsInputFor key value] := by
  simp only [LookupEvent]
  split
  · rfl
  · split <;> rfl

/-- `GetRoleAndUser` issues exactly the one request of its `LookupEvent`
call. -/
theorem getRoleAndUser_snd (key value : String) (svc : CloudTrail) :
    (GetRoleAndUser key value svc).2 = [lookupEventsInputFor key value] := by
  have h := lookupEvent_snd key value svc
  simp only [GetRoleAndUser]
  split
  next e tr heq => rw [heq] at h; exact h
  next event tr heq =>
    rw [heq] at h
    repeat' split
    all_goals exact h

/-- `GetUser` issues exactly the one request of its `LookupEvent` call. -/
theorem getUser_snd (roleArn : String) (svc : CloudTrail) :
    (GetUser roleArn svc).2 = [lookupEventsInputFor "ResourceName" roleArn] := by
  have h := lookupEvent_snd "ResourceName" roleArn svc
  simp only [GetUser]
  split
  next e tr heq => rw [heq] at h; exact h
  next event tr heq => rw [heq] at h; exact h

/-- A `ListFindings` error makes one loop iteration retry the very same
token with one unit of fuel spent. -/
theorem detectorLoop_error_step (cfg : Config) (env : Env) (d : String)
    (fuel : Nat) (token : Option String) (e : String)
    (h : env.guardDuty.listFindings d (archivedString cfg) token = .error e) :
    detectorLoop cfg env d (fuel + 1) token = detectorLoop cfg env d fuel token := by
  simp [detectorLoop, h]

/-- With a permanently failing `ListFindings`, the pagination loop never
terminates: every amount of fuel is exhausted. -/
theorem detectorLoop_fail_none (cfg : Config) (env : Env) (d : String)
    (hfail : ∀ token, ∃ e,
      env.guardDuty.listFindings d (archivedString cfg) token = .error e) :
    ∀ fuel token, detectorLoop cfg env d fuel token = none := by
  intro fuel
  induction fuel with
  | zero => intro token; rfl
  | succ n ih =>
      intro token
      obtain ⟨e, he⟩ := hfail token
      rw [detectorLoop_error_step cfg env d n token e he]
      exact ih token

/-- Once the dispatch has chosen a key/value pair, the first lookup the
finding triggers is exactly the request for that pair. -/
theorem processFinding_lookups_head (svc : CloudTrail) (finding : Finding)
    (akd : AccessKeyDetails) (key value : String)
    (hakd : finding.accessKeyDetails = some akd)
    (hdisp : dispatchFinding akd = some (key, value)) :
    (processFinding svc (some finding)).lookups.head? =
      some (lookupEventsInputFor key value) := by
  have htr := getRoleAndUser_snd key value svc
  rcases hg : GetRoleAndUser key value svc with ⟨res, tr⟩
  rw [hg] at htr
  simp only at htr
  subst htr
  rcases res with e | ⟨roleArn, username0⟩
  · simp [processFinding, hakd, hdisp, hg]
  · by_cases harn : roleArn = ""
    · simp [processFinding, hakd, hdisp, hg, harn]
    · simp only [processFinding, hakd, hdisp, hg, if_neg harn]
      by_cases hu : username0 = ""
      · rcases hgu : GetUser roleArn svc with ⟨ures, tr2⟩
        rcases ures with e2 | u <;> simp [finishFinding, hu, hgu]
      · simp [finishFinding, hu]

/-! Claim theorems. -/

/-- C1: one detector, one finding with access-key reference `AKIA123`
(archived=false); the `AccessKeyId`/`AKIA123` lookup returns one event
whose payload has identity ARN `arn:aws:iam::111:role/X` and no username,
and the `ResourceName`/ARN lookup returns one event with top-level
username `alice`.  In JSON output mode the run emits exactly one record,
whose `assumeRoleARN` field is the ARN and whose `username` field is
`alice`. -/
theorem c1_end_to_end :
    findGuardDutyUserFunction c1Env c1Cfg 2 =
      RunResult.ok [Rendered.json (jsonFields c1Detail)] ∧
    jlookup (jsonFields c1Detail) "assumeRoleARN" =
      some (Json.str "arn:aws:iam::111:role/X") ∧
    jlookup (jsonFields c1Detail) "username" = some (Json.str "alice") :=
  ⟨rfl, rfl, rfl⟩

/-- C9: every request `LookupEvent` issues caps the returned events at
one (`MaxResults = 1`), so for every service response honouring the cap
the `Expected exactly one event` error fires exactly when zero events are
returned — the more-than-one branch is unreachable. -/
theorem c9_max_results_cap (key value : String) (svc : CloudTrail)
    (out : LookupEventsOutput)
    (hresp : svc.lookupEvents (lookupEventsInputFor key value) = .ok out)
    (hcap : out.events.length ≤ (lookupEventsInputFor key value).maxResults.toNat) :
    (lookupEventsInputFor key value).maxResults = 1 ∧
    ((∃ e, (LookupEvent key value svc).1 = .error e) ↔ out.events = []) := by
  refine ⟨rfl, ?_⟩
  have hcap1 : out.events.length ≤ 1 := hcap
  simp only [LookupEvent, hresp]
  rcases hev : out.events with _ | ⟨ev1, _ | ⟨ev2, rest⟩⟩
  · simp
  · simp
  · rw [hev] at hcap1
    simp at hcap1

/-- C3 (amended): the pagination walker ends the loop when a successful
page response has an empty finding-identifier list or an empty/absent
continuation token; but a failed page fetch is retried with the very same
token — it is not treated as an empty result — so a permanently failing
fetch on one token causes infinite retry of that token and the walker
never terminates. -/
theorem c3_pagination_amended :
    (∀ cfg env d fuel token fl,
      env.guardDuty.listFindings d (archivedString cfg) token = .ok fl →
      fl.findingIds = [] →
      detectorLoop cfg env d (fuel + 1) token = some []) ∧
    (∀ cfg env d fuel token fl,
      env.guardDuty.listFindings d (archivedString cfg) token = .ok fl →
      (fl.nextToken = none ∨ fl.nextToken = some "") →
      ∃ out, detectorLoop cfg env d (fuel + 1) token = some out) ∧
    (∀ cfg env d fuel token e,
      env.guardDuty.listFindings d (archivedString cfg) token = .error e →
      detectorLoop cfg env d (fuel + 1) token = detectorLoop cfg env d fuel token) ∧
    (∀ cfg env d,
      (∀ token, ∃ e,
        env.guardDuty.listFindings d (archivedString cfg) token = .error e) →
      ∀ fuel token, detectorLoop cfg env d fuel token = none) := by
  refine ⟨?_, ?_, ?_, ?_⟩
  · intro cfg env d fuel token fl h hids
    simp [detectorLoop, h, hids]
  · intro cfg env d fuel token fl h htok
    rcases hids : fl.findingIds with _ | ⟨i, ids⟩
    · exact ⟨[], by simp [detectorLoop, h, hids]⟩
    · refine ⟨pageOutputs cfg env.cloudTrail
        (match env.guardDuty.getFindings d (i :: ids) with
          | .error _ => []
          | .ok fs => fs), ?_⟩
      rcases htok with htok | htok <;> simp [detectorLoop, h, hids, htok]
  · exact fun cfg env d fuel token e h => detectorLoop_error_step cfg env d fuel token e h
  · exact fun cfg env d hfail => detectorLoop_fail_none cfg env d hfail

/-- C3 counterexample: against an environment whose `ListFindings` call
fails on every request, the walker does not treat the failure as an empty
result and terminate — it spends all of 1000 fuel units retrying the same
`none` token. -/
theorem c3_counterexample :
    detectorLoop c1Cfg c3FailEnv "detector-1" 1000 none = none ∧
    detectorLoop c1Cfg c3FailEnv "detector-1" 1000 none =
      detectorLoop c1Cfg c3FailEnv "detector-1" 999 none := by
  have h := detectorLoop_fail_none c1Cfg c3FailEnv "detector-1"
    (fun _ => ⟨"ListFindings outage", rfl⟩)
  exact ⟨h 1000 none, by rw [h 1000 none, h 999 none]⟩

/-- C2 (amended): a lookup response that does not hold exactly one event
is an error for `LookupEvent`; a resolver error makes the finding be
skipped with no record produced; but every request caps `MaxResults` at
one, so when two stored audit events match a lookup the service returns a
single event and the resolver succeeds on it rather than skipping. -/
theorem c2_single_match_amended :
    (∀ key value svc out,
      svc.lookupEvents (lookupEventsInputFor key value) = .ok out →
      out.events.length ≠ 1 →
      ∃ e, (LookupEvent key value svc).1 = .error e) ∧
    (∀ svc finding akd key value e,
      finding.accessKeyDetails = some akd →
      dispatchFinding akd = some (key, value) →
      (GetRoleAndUser key value svc).1 = .error e →
      (processFinding svc (some finding)).out = none) ∧
    (∀ evA evB rest key value,
      matchesInput evA (lookupEventsInputFor key value) = true →
      (LookupEvent key value (awsCloudTrail (evA :: evB :: rest))).1 = .ok evA) := by
  refine ⟨?_, ?_, ?_⟩
  · intro key value svc out hresp hlen
    simp only [LookupEvent, hresp]
    rcases hev : out.events with _ | ⟨ev1, _ | ⟨ev2, rest⟩⟩
    · simp
    · rw [hev] at hlen; simp at hlen
    · simp
  · intro svc finding akd key value e hakd hdisp herr
    rcases hg : GetRoleAndUser key value svc with ⟨res, tr⟩
    rw [hg] at herr
    simp only at herr
    subst herr
    simp [processFinding, hakd, hdisp, hg]
  · intro evA evB rest key value hmatch
    simp only [lookupEventsInputFor] at hmatch
    simp [LookupEvent, awsCloudTrail, lookupEventsInputFor, List.filter_cons, hmatch,
      List.take_succ_cons]

/-- C2 counterexample: an audit store holding two events that both match
`AccessKeyId = AKIA999` — the claimed behaviour is that the finding is
skipped and no identity produced, but the run resolves the finding from
the first returned event and emits a fully populated record. -/
theorem c2_counterexample :
    (c2Store.filter
      (fun e => matchesInput e (lookupEventsInputFor "AccessKeyId" "AKIA999"))).length = 2 ∧
    (processFinding (awsCloudTrail c2Store) (some c2Finding)).out =
      some { id := some "finding-2", createdAt := none
             accessKeyID := some "AKIA999", principalID := none
             assumedRoleARN := some "arn:aws:iam::111:role/Y", username := some "bob"
             ipAddress := none, serviceName := none, api := none
             city := none, country := none } :=
  ⟨rfl, rfl⟩

/-- C4: per finding, dispatch is in a fixed order — a non-empty,
non-sentinel access-key id is used first with key `AccessKeyId`;
otherwise a non-empty, non-sentinel principal id is used with key
`ResourceName`; otherwise the finding is skipped with zero lookups issued
and no record produced. -/
theorem c4_dispatch_order (svc : CloudTrail) (finding : Finding)
    (akd : AccessKeyDetails)
    (hakd : finding.accessKeyDetails = some akd) :
    (∀ a, akd.accessKeyId = some a → accessKeyUsable akd = true →
      (processFinding svc (some finding)).lookups.head? =
        some (lookupEventsInputFor "AccessKeyId" a)) ∧
    (∀ p, akd.principalId = some p → accessKeyUsable akd = false →
      principalUsable akd = true →
      (processFinding svc (some finding)).lookups.head? =
        some (lookupEventsInputFor "ResourceName" p)) ∧
    (accessKeyUsable akd = false → principalUsable akd = false →
      processFinding svc (some finding) = { out := none, lookups := [] }) := by
  refine ⟨?_, ?_, ?_⟩
  · intro a ha husable
    have hdisp : dispatchFinding akd = some ("AccessKeyId", a) := by
      simp [dispatchFinding, husable, ha, StringValue]
    exact processFinding_lookups_head svc finding akd _ _ hakd hdisp
  · intro p hp hnoak hpu
    have hdisp : dispatchFinding akd = some ("ResourceName", p) := by
      simp [dispatchFinding, hnoak, hpu, hp, StringValue]
    exact processFinding_lookups_head svc finding akd _ _ hakd hdisp
  · intro hnoak hnopu
    have hdisp : dispatchFinding akd = none := by
      simp [dispatchFinding, hnoak, hnopu]
    simp [processFinding, hakd, hdisp]

/-- C5: a record is produced for a finding only when its credential
reference is non-empty and not a placeholder sentinel, and every produced
record is fully populated — it carries a non-empty assumed-role ARN and a
username; no partial record is ever emitted. -/
theorem c5_identity_invariant (svc : CloudTrail) (finding? : Option Finding)
    (fd : FindingDetail)
    (h : (processFinding svc finding?).out = some fd) :
    (∃ finding akd, finding? = some finding ∧
      finding.accessKeyDetails = some akd ∧
      (accessKeyUsable akd = true ∨ principalUsable akd = true)) ∧
    (∃ arn, fd.assumedRoleARN = some arn ∧ arn ≠ "") ∧
    (∃ u, fd.username = some u) := by
  rcases finding? with _ | finding
  · simp [processFinding] at h
  rcases hakd : finding.accessKeyDetails with _ | akd
  · simp [processFinding, hakd] at h
  rcases hdisp : dispatchFinding akd with _ | ⟨key, value⟩
  · simp [processFinding, hakd, hdisp] at h
  have husable : accessKeyUsable akd = true ∨ principalUsable akd = true := by
    by_contra hc
    push_neg at hc
    rcases hc with ⟨h1, h2⟩
    simp only [Bool.not_eq_true] at h1 h2
    simp [dispatchFinding, h1, h2] at hdisp
  rcases hg : GetRoleAndUser key value svc with ⟨res, tr⟩
  rcases res with e | ⟨roleArn, username0⟩
  · simp [processFinding, hakd, hdisp, hg] at h
  by_cases harn : roleArn = ""
  · simp [processFinding, hakd, hdisp, hg, harn] at h
  simp only [processFinding, hakd, hdisp, hg, if_neg harn, finishFinding] at h
  by_cases hu : username0 = ""
  · rw [if_pos hu] at h
    rcases hgu : GetUser roleArn svc with ⟨ures, tr2⟩
    rw [hgu] at h
    rcases ures with e2 | u
    · simp at h
    · simp only [Option.some.injEq] at h
      subst h
      exact ⟨⟨finding, akd, rfl, hakd, husable⟩, ⟨roleArn, rfl, harn⟩, ⟨u, rfl⟩⟩
  · rw [if_neg hu] at h
    simp only [Option.some.injEq] at h
    subst h
    exact ⟨⟨finding, akd, rfl, hakd, husable⟩, ⟨roleArn, rfl, harn⟩, ⟨username0, rfl⟩⟩

/-- C6: on the access-key path, when the first audit event yields an ARN
but no username, a second lookup with `ResourceName = ARN` is issued and
the record's username is the second event's top-level username field
(rendered through `StringValue`, so possibly empty) — the second event's
payload is never parsed, as the event's `cloudTrailEvent` field is
universally quantified and unconstrained here. -/
theorem c6_access_key_username_fallback (svc : CloudTrail) (finding : Finding)
    (akd : AccessKeyDetails) (a arn : String) (ev1 ev2 : CTEvent)
    (data ui : List (String × Json))
    (hakd : finding.accessKeyDetails = some akd)
    (hak : akd.accessKeyId = some a)
    (husable : accessKeyUsable akd = true)
    (h1 : svc.lookupEvents (lookupEventsInputFor "AccessKeyId" a) =
      .ok { events := [ev1] })
    (hpayload : ev1.cloudTrailEvent = some (Json.obj data))
    (hui : jlookup data "userIdentity" = some (Json.obj ui))
    (harn : jlookup ui "arn" = some (Json.str arn))
    (hnouser : getStringField ui "userName" = "")
    (harnne : arn ≠ "")
    (h2 : svc.lookupEvents (lookupEventsInputFor "ResourceName" arn) =
      .ok { events := [ev2] }) :
    (processFinding svc (some finding)).lookups =
      [lookupEventsInputFor "AccessKeyId" a, lookupEventsInputFor "ResourceName" arn] ∧
    ∃ fd, (processFinding svc (some finding)).out = some fd ∧
      fd.assumedRoleARN = some arn ∧
      fd.username = some (StringValue ev2.username) := by
  have hdisp : dispatchFinding akd = some ("AccessKeyId", a) := by
    simp [dispatchFinding, husable, hak, StringValue]
  have hlook1 : LookupEvent "AccessKeyId" a svc =
      (.ok ev1, [lookupEventsInputFor "AccessKeyId" a]) := by
    simp [LookupEvent, h1]
  have hgr : GetRoleAndUser "AccessKeyId" a svc =
      (.ok (arn, ""), [lookupEventsInputFor "AccessKeyId" a]) := by
    simp [GetRoleAndUser, hlook1, hpayload, hui, harn, hnouser]
  have hlook2 : LookupEvent "ResourceName" arn svc =
      (.ok ev2, [lookupEventsInputFor "ResourceName" arn]) := by
    simp [LookupEvent, h2]
  have hgu : GetUser arn svc =
      (.ok (StringValue ev2.username), [lookupEventsInputFor "ResourceName" arn]) := by
    simp [GetUser, hlook2]
  refine ⟨?_, ?_⟩
  · simp [processFinding, hakd, hdisp, hgr, if_neg harnne, finishFinding, hgu]
  · have hout : (processFinding svc (some finding)).out =
        some { baseDetail finding akd with
               assumedRoleARN := some arn
               username := some (StringValue ev2.username) } := by
      simp [processFinding, hakd, hdisp, hgr, if_neg harnne, finishFinding, hgu]
    exact ⟨_, hout, rfl, rfl⟩

/-- C10: the username fallback is not special to the access-key path — on
the principal-id path, when the first audit event yields an ARN and an
empty username, the same second lookup with `ResourceName = ARN` is
issued and its top-level username field is used, again without parsing
the second event's payload. -/
theorem c10_principal_username_fallback (svc : CloudTrail) (finding : Finding)
    (akd : AccessKeyDetails) (p arn : String) (ev1 ev2 : CTEvent)
    (data ui : List (String × Json))
    (hakd : finding.accessKeyDetails = some akd)
    (hp : akd.principalId = some p)
    (hnoak : accessKeyUsable akd = false)
    (hpu : principalUsable akd = true)
    (h1 : svc.lookupEvents (lookupEventsInputFor "ResourceName" p) =
      .ok { events := [ev1] })
    (hpayload : ev1.cloudTrailEvent = some (Json.obj data))
    (hui : jlookup data "userIdentity" = some (Json.obj ui))
    (harn : jlookup ui "arn" = some (Json.str arn))
    (hnouser : getStringField ui "userName" = "")
    (harnne : arn ≠ "")
    (h2 : svc.lookupEvents (lookupEventsInputFor "ResourceName" arn) =
      .ok { events := [ev2] }) :
    (processFinding svc (some finding)).lookups =
      [lookupEventsInputFor "ResourceName" p, lookupEventsInputFor "ResourceName" arn] ∧
    ∃ fd, (processFinding svc (some finding)).out = some fd ∧
      fd.assumedRoleARN = some arn ∧
      fd.username = some (StringValue ev2.username) := by
  have hdisp : dispatchFinding akd = some ("ResourceName", p) := by
    simp [dispatchFinding, hnoak, hpu, hp, StringValue]
  have hlook1 : LookupEvent "ResourceName" p svc =
      (.ok ev1, [lookupEventsInputFor "ResourceName" p]) := by
    simp [LookupEvent, h1]
  have hgr : GetRoleAndUser "ResourceName" p svc =
      (.ok (arn, ""), [lookupEventsInputFor "ResourceName" p]) := by
    simp [GetRoleAndUser, hlook1, hpayload, hui, harn, hnouser]
  have hlook2 : LookupEvent "ResourceName" arn svc =
      (.ok ev2, [lookupEventsInputFor "ResourceName" arn]) := by
    simp [LookupEvent, h2]
  have hgu : GetUser arn svc =
      (.ok (StringValue ev2.username), [lookupEventsInputFor "ResourceName" arn]) := by
    simp [GetUser, hlook2]
  refine ⟨?_, ?_⟩
  · simp [processFinding, hakd, hdisp, hgr, if_neg harnne, finishFinding, hgu]
  · have hout : (processFinding svc (some finding)).out =
        some { baseDetail finding akd with
               assumedRoleARN := some arn
               username := some (StringValue ev2.username) } := by
      simp [processFinding, hakd, hdisp, hgr, if_neg harnne, finishFinding, hgu]
    exact ⟨_, hout, rfl, rfl⟩

/-- C7: a configuration-check failure (in particular an invalid region)
makes the run end with that configuration error whatever the credential,
session, GuardDuty or CloudTrail behaviour — no remote interaction can
affect it; an invalid region always fails the check; and once the setup
steps succeed, the run never ends fatally — per-item errors at most leave
the normal (or fuel-exhausted) outcome. -/
theorem c7_exit_behavior :
    (∀ rfs creds sess gd ct cfg fuel e,
      checkConfig rfs cfg = .error e →
      findGuardDutyUserFunction
        { regionsForService := rfs, credsGet := creds, newSession := sess
          guardDuty := gd, cloudTrail := ct } cfg fuel =
        RunResult.configError e) ∧
    (∀ rfs cfg regions,
      rfs cfg.partition = some regions →
      regions.contains cfg.region = false →
      cfg.partition ≠ "" → cfg.region ≠ "" →
      checkConfig rfs cfg =
        .error ("Region check failed: " ++
          ("aws-guardduty-region is invalid: invalid region " ++ cfg.region))) ∧
    (∀ env cfg fuel ds,
      checkConfig env.regionsForService cfg = .ok () →
      env.credsGet = .ok () →
      env.newSession = .ok () →
      env.guardDuty.listDetectors = .ok ds →
      (∃ out, findGuardDutyUserFunction env cfg fuel = RunResult.ok out) ∨
        findGuardDutyUserFunction env cfg fuel = RunResult.outOfFuel) := by
  refine ⟨?_, ?_, ?_⟩
  · intro rfs creds sess gd ct cfg fuel e h
    simp [findGuardDutyUserFunction, h]
  · intro rfs cfg regions hpart hcont hp hr
    have hmem : ¬ (cfg.region ∈ regions) := by simpa using hcont
    simp [checkConfig, checkRegion, hpart, hp, hr, hmem]
  · intro env cfg fuel ds hcfg hcreds hsess hdet
    rcases hrun : runDetectors cfg env ds fuel with _ | out
    · right
      simp [findGuardDutyUserFunction, hcfg, hcreds, hsess, hdet, hrun]
    · left
      exact ⟨out, by simp [findGuardDutyUserFunction, hcfg, hcreds, hsess, hdet, hrun]⟩

/-- Looking a key up in an appended JSON object tries the left fields
first. -/
theorem jlookup_append (l1 l2 : List (String × Json)) (key : String) :
    jlookup (l1 ++ l2) key =
      match jlookup l1 key with
      | some v => some v
      | none => jlookup l2 key := by
  induction l1 with
  | nil => rfl
  | cons kv rest ih =>
      obtain ⟨k, v⟩ := kv
      by_cases h : k = key
      · simp [jlookup, h]
      · simp [jlookup, h, ih]

/-- An `omitempty` chunk holds its own key exactly when the field is set. -/
theorem jlookup_omitempty_self (name : String) (o : Option String) :
    jlookup (omitemptyField name o) name = Option.map Json.str o := by
  cases o <;> simp [omitemptyField, jlookup]

/-- An `omitempty` chunk never holds a different key. -/
theorem jlookup_omitempty_ne (name key : String) (o : Option String)
    (h : ¬ (name = key)) :
    jlookup (omitemptyField name o) key = none := by
  cases o <;> simp [omitemptyField, jlookup, h]

theorem jsonFields_accessKeyID (fd : FindingDetail) :
    jlookup (jsonFields fd) "accessKeyID" = Option.map Json.str fd.accessKeyID := by
  cases hak : fd.accessKeyID <;>
    simp [jsonFields, jlookup_append, jlookup, jlookup_omitempty_self,
      jlookup_omitempty_ne, hak]

theorem jsonFields_principalID (fd : FindingDetail) :
    jlookup (jsonFields fd) "principalID" = Option.map Json.str fd.principalID := by
  cases hp : fd.principalID <;>
    simp [jsonFields, jlookup_append, jlookup, jlookup_omitempty_self,
      jlookup_omitempty_ne, hp]

theorem jsonFields_ipAddress (fd : FindingDetail) :
    jlookup (jsonFields fd) "ipAddress" = Option.map Json.str fd.ipAddress := by
  cases hip : fd.ipAddress <;>
    simp [jsonFields, jlookup_append, jlookup, jlookup_omitempty_self,
      jlookup_omitempty_ne, hip]

theorem jsonFields_serviceName (fd : FindingDetail) :
    jlookup (jsonFields fd) "serviceName" = Option.map Json.str fd.serviceName := by
  cases hsn : fd.serviceName <;>
    simp [jsonFields, jlookup_append, jlookup, jlookup_omitempty_self,
      jlookup_omitempty_ne, hsn]

theorem jsonFields_api (fd : FindingDetail) :
    jlookup (jsonFields fd) "api" = Option.map Json.str fd.api := by
  cases ha : fd.api <;>
    simp [jsonFields, jlookup_append, jlookup, jlookup_omitempty_self,
      jlookup_omitempty_ne, ha]

theorem jsonFields_city (fd : FindingDetail) :
    jlookup (jsonFields fd) "city" = Option.map Json.str fd.city := by
  cases hc : fd.city <;>
    simp [jsonFields, jlookup_append, jlookup, jlookup_omitempty_self,
      jlookup_omitempty_ne, hc]

theorem jsonFields_country (fd : FindingDetail) :
    jlookup (jsonFields fd) "country" = Option.map Json.str fd.country := by
  cases hc : fd.country <;>
    simp [jsonFields, jlookup_append, jlookup, jlookup_omitempty_self,
      jlookup_omitempty_ne, hc]

theorem jsonFields_id (fd : FindingDetail) :
    jlookup (jsonFields fd) "id" = some (optJson fd.id) := by
  simp [jsonFields, jlookup_append, jlookup]

theorem jsonFields_createdAt (fd : FindingDetail) :
    jlookup (jsonFields fd) "createdAt" = some (optJson fd.createdAt) := by
  simp [jsonFields, jlookup_append, jlookup]

theorem jsonFields_assumeRoleARN (fd : FindingDetail) :
    jlookup (jsonFields fd) "assumeRoleARN" = some (optJson fd.assumedRoleARN) := by
  simp [jsonFields, jlookup_append, jlookup, jlookup_omitempty_ne]

theorem jsonFields_username (fd : FindingDetail) :
    jlookup (jsonFields fd) "username" = some (optJson fd.username) := by
  simp [jsonFields, jlookup_append, jlookup, jlookup_omitempty_ne]

/-- C8: output has exactly the two modes selected by the output value —
`"json"` gives the JSON serialization in which each empty (absent)
optional field (access key id, principal id, IP address, service name,
API, city, country) is omitted and the mandatory fields are always
present, and any other value gives the fixed text template in which every
field, optional ones included, is rendered as a (possibly empty) string. -/
theorem c8_output_modes (fd : FindingDetail) :
    renderFinding "json" fd = Rendered.json (jsonFields fd) ∧
    (∀ output, output ≠ "json" →
      renderFinding output fd = Rendered.text (printText fd)) ∧
    jlookup (jsonFields fd) "accessKeyID" = Option.map Json.str fd.accessKeyID ∧
    jlookup (jsonFields fd) "principalID" = Option.map Json.str fd.principalID ∧
    jlookup (jsonFields fd) "ipAddress" = Option.map Json.str fd.ipAddress ∧
    jlookup (jsonFields fd) "serviceName" = Option.map Json.str fd.serviceName ∧
    jlookup (jsonFields fd) "api" = Option.map Json.str fd.api ∧
    jlookup (jsonFields fd) "city" = Option.map Json.str fd.city ∧
    jlookup (jsonFields fd) "country" = Option.map Json.str fd.country ∧
    jlookup (jsonFields fd) "id" = some (optJson fd.id) ∧
    jlookup (jsonFields fd) "createdAt" = some (optJson fd.createdAt) ∧
    jlookup (jsonFields fd) "assumeRoleARN" = some (optJson fd.assumedRoleARN) ∧
    jlookup (jsonFields fd) "username" = some (optJson fd.username) ∧
    printText fd =
      [StringValue fd.id, StringValue fd.createdAt, StringValue fd.accessKeyID,
       StringValue fd.principalID, StringValue fd.assumedRoleARN,
       StringValue fd.username, StringValue fd.ipAddress,
       StringValue fd.serviceName, StringValue fd.api,
       StringValue fd.city, StringValue fd.country] := by
  exact ⟨rfl, fun output h => by simp [renderFinding, h],
    jsonFields_accessKeyID fd, jsonFields_principalID fd, jsonFields_ipAddress fd,
    jsonFields_serviceName fd, jsonFields_api fd, jsonFields_city fd,
    jsonFields_country fd, jsonFields_id fd, jsonFields_createdAt fd,
    jsonFields_assumeRoleARN fd, jsonFields_username fd, rfl⟩


/-! Witnesses: each applies its claim theorem at a concrete input,
discharging every hypothesis there. -/

/-- Witness for C2: with the two-event store, the capped lookup succeeds
on the first matching event. -/
theorem c2_single_match_witness :
    (LookupEvent "AccessKeyId" "AKIA999"
      (awsCloudTrail (c2EventA :: c2EventB :: []))).1 = .ok c2EventA :=
  c2_single_match_amended.2.2 c2EventA c2EventB [] "AccessKeyId" "AKIA999" rfl

/-- Witness for C3: a successful single page whose continuation token is
absent makes the walker terminate. -/
theorem c3_pagination_witness :
    ∃ out, detectorLoop c1Cfg c1Env "detector-1" 1 none = some out :=
  c3_pagination_amended.2.1 c1Cfg c1Env "detector-1" 0 none
    { findingIds := ["finding-1"], nextToken := none } rfl (Or.inl rfl)

/-- Witness for C4: a usable access key dispatches to an `AccessKeyId`
lookup first. -/
theorem c4_dispatch_witness :
    (processFinding (awsCloudTrail [c1Event1, c1Event2])
      (some c1Finding)).lookups.head? =
      some (lookupEventsInputFor "AccessKeyId" "AKIA123") :=
  (c4_dispatch_order (awsCloudTrail [c1Event1, c1Event2]) c1Finding
    { accessKeyId := some "AKIA123", principalId := none } rfl).1 "AKIA123" rfl rfl

/-- Witness for C5: the record produced in the end-to-end scenario
satisfies the invariant. -/
theorem c5_identity_witness :
    (∃ finding akd, (some c1Finding : Option Finding) = some finding ∧
      finding.accessKeyDetails = some akd ∧
      (accessKeyUsable akd = true ∨ principalUsable akd = true)) ∧
    (∃ arn, c1Detail.assumedRoleARN = some arn ∧ arn ≠ "") ∧
    (∃ u, c1Detail.username = some u) :=
  c5_identity_invariant (awsCloudTrail [c1Event1, c1Event2]) (some c1Finding)
    c1Detail rfl

/-- Witness for C6: the access-key scenario issues both lookups and takes
`alice` from the second event's top-level username. -/
theorem c6_fallback_witness :
    (processFinding (awsCloudTrail [c1Event1, c1Event2]) (some c1Finding)).lookups =
      [lookupEventsInputFor "AccessKeyId" "AKIA123",
       lookupEventsInputFor "ResourceName" "arn:aws:iam::111:role/X"] ∧
    ∃ fd, (processFinding (awsCloudTrail [c1Event1, c1Event2])
        (some c1Finding)).out = some fd ∧
      fd.assumedRoleARN = some "arn:aws:iam::111:role/X" ∧
      fd.username = some (StringValue c1Event2.username) :=
  c6_access_key_username_fallback (awsCloudTrail [c1Event1, c1Event2]) c1Finding
    { accessKeyId := some "AKIA123", principalId := none } "AKIA123"
    "arn:aws:iam::111:role/X" c1Event1 c1Event2
    [("userIdentity", Json.obj [("arn", Json.str "arn:aws:iam::111:role/X")])]
    [("arn", Json.str "arn:aws:iam::111:role/X")]
    rfl rfl rfl rfl rfl rfl rfl rfl (by decide) rfl

/-- Witness for C7: the invalid region `mars` ends the run with the
configuration error, with arbitrary concrete remote services. -/
theorem c7_exit_witness :
    findGuardDutyUserFunction
      { regionsForService := sampleRegions, credsGet := .ok (), newSession := .ok ()
        guardDuty := c3FailEnv.guardDuty, cloudTrail := awsCloudTrail [] }
      cfgMars 1 =
      RunResult.configError
        "Region check failed: aws-guardduty-region is invalid: invalid region mars" :=
  c7_exit_behavior.1 sampleRegions (.ok ()) (.ok ()) c3FailEnv.guardDuty
    (awsCloudTrail []) cfgMars 1
    "Region check failed: aws-guardduty-region is invalid: invalid region mars" rfl

/-- Witness for C8: a non-`json` output value renders the text template. -/
theorem c8_output_witness :
    renderFinding "text" c1Detail = Rendered.text (printText c1Detail) :=
  (c8_output_modes c1Detail).2.1 "text" (by decide)

/-- Witness for C9: with an empty capped response, `LookupEvent` errors
exactly because zero events were returned. -/
theorem c9_max_results_witness :
    (lookupEventsInputFor "AccessKeyId" "AKIA123").maxResults = 1 ∧
    ((∃ e, (LookupEvent "AccessKeyId" "AKIA123" emptyCloudTrail).1 = .error e) ↔
      emptyLookupOutput.events = []) :=
  c9_max_results_cap "AccessKeyId" "AKIA123" emptyCloudTrail emptyLookupOutput
    rfl (by decide)

/-- Witness for C10: the principal-id scenario issues both lookups and
takes `carol` from the second event's top-level username. -/
theorem c10_fallback_witness :
    (processFinding (awsCloudTrail [c10Event1, c10Event2]) (some c10Finding)).lookups =
      [lookupEventsInputFor "ResourceName" "AROA111",
       lookupEventsInputFor "ResourceName" "arn:aws:iam::111:role/Z"] ∧
    ∃ fd, (processFinding (awsCloudTrail [c10Event1, c10Event2])
        (some c10Finding)).out = some fd ∧
      fd.assumedRoleARN = some "arn:aws:iam::111:role/Z" ∧
      fd.username = some (StringValue c10Event2.username) :=
  c10_principal_username_fallback (awsCloudTrail [c10Event1, c10Event2]) c10Finding
    { accessKeyId := none, principalId := some "AROA111" } "AROA111"
    "arn:aws:iam::111:role/Z" c10Event1 c10Event2
    [("userIdentity", Json.obj [("arn", Json.str "arn:aws:iam::111:role/Z")])]
    [("arn", Json.str "arn:aws:iam::111:role/Z")]
    rfl rfl rfl rfl rfl rfl rfl rfl rfl (by decide) rfl

end FindGuardDutyUser
